import Mathlib

/-!
Verification of the gateway supervisor in `src/gateway/process.ts`
(repository `moltworker`).

The source file has three functions:
  * `preseedOpenClawConfig` — selects a model provider from available API
    keys, serializes a config document, and writes it into the sandbox via
    a shell command (best effort, all failures swallowed);
  * `findExistingMoltbotProcess` — scans the sandbox process list for a
    live gateway process;
  * `ensureMoltbotGateway` — the supervisor: reuse-or-restart decision,
    readiness probing, fresh launch, and error propagation.

The shallow embedding below mirrors those functions over an oracle
(`World`) that fixes the outcome of every external sandbox call
(each call site of the source runs at most once per invocation, so one
oracle field per call site is exact).  Executing an embedded function
yields the list of sandbox calls issued (`Event` trace) together with a
normal return or a raised error (`Except Err`), mirroring TypeScript
try/catch via an explicit `Eff.tryCatchE` combinator placed exactly where
the source places `try`/`catch`.
-/

/-- Single-quote character, written numerically. -/
def squoteChar : Char := Char.ofNat 39

/-- Backslash character, written numerically. -/
def bslashChar : Char := Char.ofNat 92

/-- Double-quote character, written numerically. -/
def dquoteChar : Char := Char.ofNat 34

/-- Substring test on character lists: does `pat` occur inside `hay`?
Models JavaScript `String.prototype.includes`. -/
def hasSubList : List Char → List Char → Bool
  | [], pat => pat.isEmpty
  | h :: t, pat => pat.isPrefixOf (h :: t) || hasSubList t pat

/-- `strContains hay pat` models `hay.includes(pat)` from the source. -/
def strContains (hay pat : String) : Bool := hasSubList hay.data pat.data

/-- JavaScript truthiness of an optional string: present and non-empty. -/
def truthy : Option String → Bool
  | none => false
  | some s => !(s == "")

/-- Models the JavaScript `a || d` default pattern on optional strings. -/
def orDefault (o : Option String) (d : String) : String :=
  match o with
  | none => d
  | some s => if s == "" then d else s

/-- JSON values, the image of the object literals built by
`preseedOpenClawConfig` (source models `Record<string, unknown>`). -/
inductive JVal where
  | jstr : String → JVal
  | jnum : Nat → JVal
  | jbool : Bool → JVal
  | jarr : List JVal → JVal
  | jobj : List (String × JVal) → JVal

/-- One hexadecimal digit (lower case), for JSON control-char escapes. -/
def hexDigit (n : Nat) : Char :=
  if n < 10 then Char.ofNat (48 + n) else Char.ofNat (87 + n)

/-- Four hexadecimal digits, for JSON `\u....` escapes. -/
def hex4 (n : Nat) : String :=
  String.mk [hexDigit ((n / 4096) % 16), hexDigit ((n / 256) % 16),
    hexDigit ((n / 16) % 16), hexDigit (n % 16)]

/-- Escape one character the way `JSON.stringify` escapes characters
inside a string literal. -/
def jsonEscapeChar (c : Char) : List Char :=
  if c == dquoteChar then [bslashChar, dquoteChar]
  else if c == bslashChar then [bslashChar, bslashChar]
  else if c.toNat == 8 then [bslashChar, Char.ofNat 98]
  else if c.toNat == 9 then [bslashChar, Char.ofNat 116]
  else if c.toNat == 10 then [bslashChar, Char.ofNat 110]
  else if c.toNat == 12 then [bslashChar, Char.ofNat 102]
  else if c.toNat == 13 then [bslashChar, Char.ofNat 114]
  else if c.toNat < 32 then bslashChar :: Char.ofNat 117 :: (hex4 c.toNat).data
  else [c]

/-- A JSON string literal as emitted by `JSON.stringify`. -/
def jsonQuote (s : String) : String :=
  String.mk (dquoteChar :: ((s.data.map jsonEscapeChar).flatten ++ [dquoteChar]))

mutual

/-- Render a JSON value the way `JSON.stringify` (no spacing) does,
preserving the insertion order of object keys. -/
def JVal.render : JVal → String
  | JVal.jstr s => jsonQuote s
  | JVal.jnum n => toString n
  | JVal.jbool b => if b then "true" else "false"
  | JVal.jarr xs => "[" ++ JVal.renderArr xs ++ "]"
  | JVal.jobj fs => "\x7b" ++ JVal.renderObj fs ++ "\x7d"

/-- Comma-separated rendering of a JSON array body. -/
def JVal.renderArr : List JVal → String
  | [] => ""
  | [x] => JVal.render x
  | x :: y :: t => JVal.render x ++ "," ++ JVal.renderArr (y :: t)

/-- Comma-separated rendering of a JSON object body. -/
def JVal.renderObj : List (String × JVal) → String
  | [] => ""
  | [(k, v)] => jsonQuote k ++ ":" ++ JVal.render v
  | (k, v) :: y :: t => jsonQuote k ++ ":" ++ JVal.render v ++ "," ++ JVal.renderObj (y :: t)

end

/-- Worker environment bindings used by `process.ts` (`MoltbotEnv`): the
provider API keys, the Anthropic base-URL override, the gateway auth
token and the dev-mode flag.  TypeScript `string | undefined` becomes
`Option String`. -/
structure MoltbotEnv where
  GEMINI_API_KEY : Option String
  ANTHROPIC_API_KEY : Option String
  OPENAI_API_KEY : Option String
  ANTHROPIC_BASE_URL : Option String
  MOLTBOT_GATEWAY_TOKEN : Option String
  DEV_MODE : Option String
deriving DecidableEq

/-- A sandbox process handle (`Process` from `@cloudflare/sandbox`):
identifier, originating command line, and status string. -/
structure Proc where
  id : Nat
  command : String
  status : String
deriving DecidableEq

/-- Captured output streams returned by `proc.getLogs()`. -/
structure Logs where
  stdout : String
  stderr : String
deriving DecidableEq

/-- Errors that the embedded computations can raise.  The named
constructors are concrete error values external calls may throw;
`gatewayStartupError` is the descriptive error the source constructs at
the fresh-start timeout site (`new Error('OpenClaw gateway failed to
start. ...', ...)`), carrying its message and its `cause`. -/
inductive Err where
  | listFailed : Err
  | portTimeout : Err
  | killFailed : Err
  | startFailed : Err
  | waitProcFailed : Err
  | getLogsFailed : Err
  | gatewayStartupError : String → Err → Err
deriving DecidableEq

/-- Observable sandbox calls issued by the supervisor, in order. -/
inductive Event where
  | rclone : Event
  | listProcs : Event
  | waitPort : Nat → Nat → Nat → Event
  | killProc : Nat → Event
  | startProc : String → Event
  | waitProc : Nat → Nat → Event
  | getLogs : Nat → Event
deriving DecidableEq

/-- Outcome oracle for one supervisor invocation: every external call
site of `process.ts` runs at most once per invocation, so one field per
call site fixes the entire external behaviour.  `Except.error` means the
awaited call throws. -/
structure World where
  processes : Except Err (List Proc)
  existingPortWait : Except Err Unit
  killOutcome : Except Err Unit
  preseedStart : Except Err Proc
  preseedWaitOutcome : Except Err Unit
  preseedLogs : Except Err Logs
  launchStart : Except Err Proc
  freshPortWait : Except Err Unit
  logsAfterReady : Except Err Logs
  logsOnFailure : Except Err Logs

/-- Effectful computation: the trace of sandbox calls made, together with
a normal result or a raised error. -/
def Eff (α : Type) : Type := List Event × Except Err α

/-- Return without effects. -/
def Eff.pureE {α : Type} (a : α) : Eff α := ([], Except.ok a)

/-- Sequencing: a raised error skips the continuation (as an un-caught
exception does); traces concatenate. -/
def Eff.bind {α β : Type} (x : Eff α) (f : α → Eff β) : Eff β :=
  match x with
  | (ev, Except.error e) => (ev, Except.error e)
  | (ev, Except.ok a) =>
    match f a with
    | (ev2, r) => (ev ++ ev2, r)

/-- `try { x } catch (e) { h e }`: a raised error transfers control to
the handler; the trace of the failed body is kept. -/
def Eff.tryCatchE {α : Type} (x : Eff α) (h : Err → Eff α) : Eff α :=
  match x with
  | (ev, Except.ok a) => (ev, Except.ok a)
  | (ev, Except.error e) =>
    match h e with
    | (ev2, r) => (ev ++ ev2, r)

/-- An awaited external call: records its event and takes the outcome
the oracle assigns to this call site. -/
def call {α : Type} (ev : Event) (outcome : Except Err α) : Eff α := ([ev], outcome)

/-- `throw e`. -/
def throwE {α : Type} (e : Err) : Eff α := ([], Except.error e)

/-- Provider selection of `preseedOpenClawConfig` (source lines 20-56):
the `if / else if / else if / else return` chain over
`GEMINI_API_KEY`, `ANTHROPIC_API_KEY`, `OPENAI_API_KEY`.  Returns the
`providerConfig` object fields together with `defaultModel`, or `none`
when the source returns early (no key present). -/
def providerSelection (env : MoltbotEnv) : Option (List (String × JVal) × String) :=
  if truthy env.GEMINI_API_KEY then
    some ([("google-gemini", JVal.jobj [
      ("baseUrl", JVal.jstr "https://generativelanguage.googleapis.com/v1beta/openai/"),
      ("api", JVal.jstr "openai-completions"),
      ("apiKey", JVal.jstr (env.GEMINI_API_KEY.getD "")),
      ("models", JVal.jarr [
        JVal.jobj [("id", JVal.jstr "gemini-2.0-flash"), ("name", JVal.jstr "Gemini 2.0 Flash"),
          ("contextWindow", JVal.jnum 1048576), ("maxTokens", JVal.jnum 8192)],
        JVal.jobj [("id", JVal.jstr "gemini-2.5-flash-preview-05-20"), ("name", JVal.jstr "Gemini 2.5 Flash"),
          ("contextWindow", JVal.jnum 1048576), ("maxTokens", JVal.jnum 65536)]])])],
      "google-gemini/gemini-2.0-flash")
  else if truthy env.ANTHROPIC_API_KEY then
    some ([("anthropic", JVal.jobj [
      ("api", JVal.jstr "anthropic-messages"),
      ("apiKey", JVal.jstr (env.ANTHROPIC_API_KEY.getD "")),
      ("baseUrl", JVal.jstr (orDefault env.ANTHROPIC_BASE_URL "https://api.anthropic.com")),
      ("models", JVal.jarr [
        JVal.jobj [("id", JVal.jstr "claude-sonnet-4-20250514"), ("name", JVal.jstr "Claude Sonnet"),
          ("contextWindow", JVal.jnum 200000), ("maxTokens", JVal.jnum 8192)]])])],
      "anthropic/claude-sonnet-4-20250514")
  else if truthy env.OPENAI_API_KEY then
    some ([("openai", JVal.jobj [
      ("api", JVal.jstr "openai-completions"),
      ("apiKey", JVal.jstr (env.OPENAI_API_KEY.getD "")),
      ("baseUrl", JVal.jstr "https://api.openai.com/v1"),
      ("models", JVal.jarr [
        JVal.jobj [("id", JVal.jstr "gpt-4o"), ("name", JVal.jstr "GPT-4o"),
          ("contextWindow", JVal.jnum 128000), ("maxTokens", JVal.jnum 4096)]])])],
      "openai/gpt-4o")
  else none

/-- The full config document built at source lines 58-71, given the
selected providers object and default model. -/
def fullConfig (port : Nat) (env : MoltbotEnv) (providers : List (String × JVal))
    (defaultModel : String) : JVal :=
  JVal.jobj [
    ("gateway", JVal.jobj [
      ("port", JVal.jnum port),
      ("mode", JVal.jstr "local"),
      ("bind", JVal.jstr "lan"),
      ("trustedProxies", JVal.jarr [JVal.jstr "10.1.0.0"]),
      ("auth",
        if orDefault env.MOLTBOT_GATEWAY_TOKEN "" == "" then JVal.jobj []
        else JVal.jobj [("token", JVal.jstr (orDefault env.MOLTBOT_GATEWAY_TOKEN ""))]),
      ("controlUi", JVal.jobj [("allowInsecureAuth", JVal.jbool (env.DEV_MODE == some "true"))])]),
    ("models", JVal.jobj [("providers", JVal.jobj providers)]),
    ("agents", JVal.jobj [("defaults", JVal.jobj [("model",
      if defaultModel == "" then JVal.jobj []
      else JVal.jobj [("primary", JVal.jstr defaultModel)])])]),
    ("channels", JVal.jobj [])]

/-- The shell escaping at source line 76:
`configJson.replace(/'/g, "'\\''")` — every single quote becomes the
four characters quote, backslash, quote, quote. -/
def escapeSingleQuotes : List Char → List Char
  | [] => []
  | c :: t =>
    if c == squoteChar then
      squoteChar :: bslashChar :: squoteChar :: squoteChar :: escapeSingleQuotes t
    else c :: escapeSingleQuotes t

/-- String-level wrapper of `escapeSingleQuotes`. -/
def strEscapeQuotes (s : String) : String := String.mk (escapeSingleQuotes s.data)

/-- A single-quote as a string, for building shell command text. -/
def sqs : String := String.singleton squoteChar

/-- The `node -e` program text embedded in the write command. -/
def nodeProg : String :=
  "require(\"fs\").writeFileSync(\"/root/.openclaw/openclaw.json\", JSON.stringify(JSON.parse(process.argv[1]), null, 2))"

/-- The write command of source line 77, given the escaped payload. -/
def writeCmd (escaped : String) : String :=
  "mkdir -p /root/.openclaw && node -e " ++ sqs ++ nodeProg ++ sqs ++ " " ++ sqs ++ escaped ++ sqs

/-- The launch command of source line 186. -/
def launchCommandStr : String := "/usr/local/bin/start-openclaw.sh"

/-- `preseedOpenClawConfig` (source lines 13-90): select a provider
(early return when none), build and serialize the config, escape it and
start the write command; `startProcess`, `waitForProcess` and `getLogs`
all sit inside one `try` whose `catch` logs and returns normally. -/
def preseedOpenClawConfig (port : Nat) (env : MoltbotEnv) (w : World) : Eff Unit :=
  match providerSelection env with
  | none => Eff.pureE ()
  | some (providers, defaultModel) =>
    Eff.tryCatchE
      (Eff.bind
        (call
          (Event.startProc (writeCmd (strEscapeQuotes
            ((fullConfig port env providers defaultModel).render))))
          w.preseedStart)
        (fun proc =>
          Eff.bind (call (Event.waitProc proc.id 5000) w.preseedWaitOutcome) (fun _ =>
          Eff.bind (call (Event.getLogs proc.id) w.preseedLogs) (fun _logs =>
          Eff.pureE ()))))
      (fun _e => Eff.pureE ())

/-- The loop body of `findExistingMoltbotProcess` (source lines 101-122):
first process whose command matches a launcher pattern, does not match a
management-subcommand pattern, and whose status is starting or running. -/
def isGatewayProcess (cmd : String) : Bool :=
  strContains cmd "start-openclaw.sh" || strContains cmd "openclaw gateway" ||
  strContains cmd "start-moltbot.sh" || strContains cmd "clawdbot gateway"

/-- The management-subcommand patterns of source lines 110-115. -/
def isCliCommand (cmd : String) : Bool :=
  strContains cmd "openclaw devices" || strContains cmd "openclaw --version" ||
  strContains cmd "openclaw onboard" || strContains cmd "clawdbot devices" ||
  strContains cmd "clawdbot --version"

/-- The `for` loop of `findExistingMoltbotProcess`, on an already
retrieved process list. -/
def findGatewayInList : List Proc → Option Proc
  | [] => none
  | p :: rest =>
    if isGatewayProcess p.command && !(isCliCommand p.command) then
      if p.status == "starting" || p.status == "running" then some p
      else findGatewayInList rest
    else findGatewayInList rest

/-- `findExistingMoltbotProcess` (source lines 98-127): list processes
inside a `try` whose `catch` logs; both loop fall-through and listing
failure yield `none`. -/
def findExistingMoltbotProcess (w : World) : Eff (Option Proc) :=
  Eff.tryCatchE
    (Eff.bind (call Event.listProcs w.processes)
      (fun ps => Eff.pureE (findGatewayInList ps)))
    (fun _e => Eff.pureE none)

/-- The message of the descriptive startup error (source line 217),
including the `logs.stderr || '(empty)'` default. -/
def startupErrMsg (stderr : String) : String :=
  "OpenClaw gateway failed to start. Stderr: " ++ (if stderr == "" then "(empty)" else stderr)

/-- The fresh-start tail of `ensureMoltbotGateway` (source lines
176-229): pre-seed config, launch (a launch failure is rethrown), then
one `try` containing the readiness probe AND the post-success `getLogs`,
whose `catch (e)` runs an inner `try` that retrieves logs and constructs
the descriptive error — note the inner `throw new Error(...)` sits
inside the inner `try`, so its own `catch (logErr)` intercepts it and
rethrows the original `e`, exactly as the source does. -/
def freshStart (port timeoutMs : Nat) (env : MoltbotEnv) (w : World) : Eff Proc :=
  Eff.bind (preseedOpenClawConfig port env w) (fun _ =>
  Eff.bind
    (Eff.tryCatchE (call (Event.startProc launchCommandStr) w.launchStart)
      (fun startErr => throwE startErr))
    (fun proc =>
  Eff.bind
    (Eff.tryCatchE
      (Eff.bind (call (Event.waitPort proc.id port timeoutMs) w.freshPortWait) (fun _ =>
       Eff.bind (call (Event.getLogs proc.id) w.logsAfterReady) (fun _logs =>
       Eff.pureE ())))
      (fun e =>
        Eff.tryCatchE
          (Eff.bind (call (Event.getLogs proc.id) w.logsOnFailure) (fun logs =>
            throwE (Err.gatewayStartupError (startupErrMsg logs.stderr) e)))
          (fun _logErr => throwE e)))
    (fun _ => Eff.pureE proc)))

/-- `ensureMoltbotGateway` (source lines 141-229).  `ensureRcloneConfig`
is outside `src/` — modelled from the spec: the remote-storage mount
helper is best-effort and its failures are non-fatal, so it is an event
that always returns.  Then: discovery; on a live candidate, probe with
the full timeout inside a `try` whose `catch` best-effort kills and
falls through to the fresh start. -/
def ensureMoltbotGateway (port timeoutMs : Nat) (env : MoltbotEnv) (w : World) : Eff Proc :=
  Eff.bind (call Event.rclone (Except.ok ())) (fun _ =>
  Eff.bind (findExistingMoltbotProcess w) (fun existing =>
  match existing with
  | some ex =>
    Eff.tryCatchE
      (Eff.bind (call (Event.waitPort ex.id port timeoutMs) w.existingPortWait)
        (fun _ => Eff.pureE ex))
      (fun _e =>
        Eff.bind
          (Eff.tryCatchE (call (Event.killProc ex.id) w.killOutcome) (fun _k => Eff.pureE ()))
          (fun _ => freshStart port timeoutMs env w))
  | none => freshStart port timeoutMs env w))

/-! ### Helper lemmas about the effect combinators -/

@[simp] lemma Eff.bind_ok {α β : Type} (ev : List Event) (a : α) (f : α → Eff β) :
    Eff.bind (ev, Except.ok a) f = (ev ++ (f a).1, (f a).2) := by
  unfold Eff.bind
  rcases h : f a with ⟨ev2, r⟩
  simp [h]

@[simp] lemma Eff.bind_error {α β : Type} (ev : List Event) (e : Err) (f : α → Eff β) :
    Eff.bind (ev, Except.error e) f = (ev, Except.error e) := rfl

@[simp] lemma Eff.tryCatchE_ok {α : Type} (ev : List Event) (a : α) (h : Err → Eff α) :
    Eff.tryCatchE (ev, Except.ok a) h = (ev, Except.ok a) := rfl

@[simp] lemma Eff.tryCatchE_error {α : Type} (ev : List Event) (e : Err) (h : Err → Eff α) :
    Eff.tryCatchE (ev, Except.error e) h = (ev ++ (h e).1, (h e).2) := by
  unfold Eff.tryCatchE
  rcases hh : h e with ⟨ev2, r⟩
  simp [hh]

/-- Catching every error with a pure handler always returns normally. -/
lemma tryCatchE_pure_snd (x : Eff Unit) :
    (Eff.tryCatchE x (fun _ => Eff.pureE ())).2 = Except.ok () := by
  obtain ⟨ev, r⟩ := x
  cases r with
  | ok a => rfl
  | error e => rfl

/-- The config seeder returns normally on every input: all three fallible
steps of the write (start, wait, log read) sit inside its `try`. -/
lemma preseed_ok (port : Nat) (env : MoltbotEnv) (w : World) :
    (preseedOpenClawConfig port env w).2 = Except.ok () := by
  unfold preseedOpenClawConfig
  cases h : providerSelection env with
  | none => rfl
  | some pr =>
    obtain ⟨providers, dm⟩ := pr
    exact tryCatchE_pure_snd _

/-- The config write command is never the gateway launch command. -/
lemma writeCmd_ne_launch (s : String) : writeCmd s ≠ launchCommandStr := by
  intro h
  have hl : (writeCmd s).length = launchCommandStr.length := by rw [h]
  have h1 : nodeProg.length = 114 := rfl
  have h2 : ("mkdir -p /root/.openclaw && node -e ").length = 36 := rfl
  have h3 : launchCommandStr.length = 32 := rfl
  have h4 : sqs.length = 1 := rfl
  have h5 : (" ").length = 1 := rfl
  simp [writeCmd, String.length_append, h1, h2, h3, h4, h5] at hl
  omega

lemma writeCmd_beq_launch_false (s : String) : (writeCmd s == launchCommandStr) = false :=
  beq_eq_false_iff_ne.mpr (writeCmd_ne_launch s)

/-- Kill events, for counting kills in a trace. -/
def isKillEvent : Event → Bool
  | Event.killProc _ => true
  | _ => false

/-- Gateway launch events: a `startProcess` of the launch command. -/
def isLaunchEvent : Event → Bool
  | Event.startProc c => c == launchCommandStr
  | _ => false

/-- The config seeder's trace contains no kill and no gateway launch,
whatever the credentials and the oracle outcomes. -/
lemma preseed_trace_counts (port : Nat) (env : MoltbotEnv) (w : World) :
    (preseedOpenClawConfig port env w).1.countP isKillEvent = 0 ∧
    (preseedOpenClawConfig port env w).1.countP isLaunchEvent = 0 := by
  unfold preseedOpenClawConfig
  cases h : providerSelection env with
  | none => simp [Eff.pureE]
  | some pr =>
    obtain ⟨providers, dm⟩ := pr
    cases hs : w.preseedStart with
    | error e =>
      simp [call, Eff.pureE, hs, List.countP_cons, isKillEvent, isLaunchEvent,
        writeCmd_beq_launch_false]
    | ok proc =>
      cases hw : w.preseedWaitOutcome with
      | error e =>
        simp [call, Eff.pureE, hs, hw, List.countP_cons, isKillEvent, isLaunchEvent,
          writeCmd_beq_launch_false]
      | ok u =>
        cases hl : w.preseedLogs with
        | error e =>
          simp [call, Eff.pureE, hs, hw, hl, List.countP_cons, isKillEvent, isLaunchEvent,
            writeCmd_beq_launch_false]
        | ok lg =>
          simp [call, Eff.pureE, hs, hw, hl, List.countP_cons, isKillEvent, isLaunchEvent,
            writeCmd_beq_launch_false]

/-- Whatever the credentials and whatever the outcomes of the config
write, the fresh-start path always reaches the gateway launch call. -/
lemma launch_mem_freshStart (port t : Nat) (env : MoltbotEnv) (w : World) :
    Event.startProc launchCommandStr ∈ (freshStart port t env w).1 := by
  unfold freshStart
  have hp := preseed_ok port env w
  rcases hpre : preseedOpenClawConfig port env w with ⟨pev, pr⟩
  rw [hpre] at hp
  simp only at hp
  subst hp
  cases hls : w.launchStart with
  | error e => simp [call, throwE, hls]
  | ok np =>
    cases hfw : w.freshPortWait with
    | error e =>
      cases hlf : w.logsOnFailure with
      | error e2 => simp [call, throwE, Eff.pureE, hls, hfw, hlf]
      | ok lg => simp [call, throwE, Eff.pureE, hls, hfw, hlf]
    | ok u =>
      cases hla : w.logsAfterReady with
      | error e2 =>
        cases hlf : w.logsOnFailure with
        | error e3 => simp [call, throwE, Eff.pureE, hls, hfw, hla, hlf]
        | ok lg => simp [call, throwE, Eff.pureE, hls, hfw, hla, hlf]
      | ok lg => simp [call, throwE, Eff.pureE, hls, hfw, hla]

/-! ### Shell single-quote transport (claim C10) -/

/-- POSIX shell word evaluation, restricted to the constructs the write
command's payload transport uses: outside quotes (`false`) a single
quote opens a quoted section, a backslash escapes the next character,
any other character is literal; inside single quotes (`true`) every
character is literal until the closing quote.  `none` marks an
unterminated quote or dangling backslash. -/
def shUnquote : Bool → List Char → Option (List Char)
  | true, [] => none
  | true, c :: rest =>
    if c == squoteChar then shUnquote false rest
    else Option.map (fun l => c :: l) (shUnquote true rest)
  | false, [] => some []
  | false, c :: rest =>
    if c == squoteChar then shUnquote true rest
    else if c == bslashChar then
      match rest with
      | [] => none
      | d :: rest2 => Option.map (fun l => d :: l) (shUnquote false rest2)
    else Option.map (fun l => c :: l) (shUnquote false rest)

@[simp] lemma squote_beq_squote : (squoteChar == squoteChar) = true := by decide

@[simp] lemma bslash_beq_squote : (bslashChar == squoteChar) = false := by decide

@[simp] lemma bslash_beq_bslash : (bslashChar == bslashChar) = true := by decide

/-- Inside an open single-quoted section, the escaped payload followed by
the closing quote evaluates back to the payload. -/
lemma shUnquote_escape (s : List Char) :
    shUnquote true (escapeSingleQuotes s ++ [squoteChar]) = some s := by
  induction s with
  | nil => simp [escapeSingleQuotes, shUnquote]
  | cons c t ih =>
    by_cases hc : c = squoteChar
    · subst hc
      simp [escapeSingleQuotes, shUnquote]
      rw [shUnquote.eq_def]
      simp [ih]
    · have hc2 : (c == squoteChar) = false := by
        simp [hc]
      simp [escapeSingleQuotes, shUnquote, hc2, ih]

/-- C10: Escaping round-trip: for every serialized configuration string,
including ones containing single or double quote characters from API
keys, the escaping applied when embedding the payload into the write
command (replacing each single quote by quote-backslash-quote-quote),
when interpreted under the shell's single-quoted-string rules, yields
exactly the original serialized configuration — so the payload the write
process receives in `argv[1]` equals the config that was serialized. -/
theorem single_quote_escape_roundtrip (s : String) :
    shUnquote false (squoteChar :: ((strEscapeQuotes s).data ++ [squoteChar])) = some s.data := by
  have hd : (strEscapeQuotes s).data = escapeSingleQuotes s.data := rfl
  rw [hd, shUnquote.eq_def]
  simp [shUnquote_escape]

/-! ### Process classifier (claim C5) -/

/-- The full acceptance predicate of the classifier loop body. -/
def gatewayCandidate (p : Proc) : Bool :=
  isGatewayProcess p.command && !(isCliCommand p.command) &&
    (p.status == "starting" || p.status == "running")

/-- The classifier loop returns the first list element accepted by
`gatewayCandidate`, and `none` when no element is accepted. -/
lemma findGatewayInList_eq_find (ps : List Proc) :
    findGatewayInList ps = ps.find? gatewayCandidate := by
  induction ps with
  | nil => rfl
  | cons p rest ih =>
    cases h1 : isGatewayProcess p.command <;>
      cases h2 : isCliCommand p.command <;>
      cases h3 : (p.status == "starting" || p.status == "running") <;>
      simp [findGatewayInList, List.find?, gatewayCandidate, h1, h2, h3, ih]

/-- Whatever the classifier returns matches a launcher pattern, does not
match a management-subcommand pattern, and is in a live status. -/
lemma findGatewayInList_sound (ps : List Proc) (p : Proc)
    (h : findGatewayInList ps = some p) :
    isGatewayProcess p.command = true ∧ isCliCommand p.command = false ∧
    (p.status == "starting" || p.status == "running") = true := by
  induction ps with
  | nil => simp [findGatewayInList] at h
  | cons q rest ih =>
    cases h1 : isGatewayProcess q.command <;>
      cases h2 : isCliCommand q.command <;>
      cases h3 : (q.status == "starting" || q.status == "running") <;>
      simp [findGatewayInList, h1, h2, h3] at h
    · exact ih h
    · exact ih h
    · exact ih h
    · exact ih h
    · exact ih h
    · subst h
      exact ⟨h1, h2, h3⟩
    · exact ih h
    · exact ih h

/-- C5: Classifier characterization: for every process list,
`findExistingMoltbotProcess`'s loop returns the first process in listing
order whose command line matches a launcher pattern and does not match a
management-subcommand pattern and whose status is starting or running,
and returns none when no such process exists; whatever is returned never
matches a management-subcommand pattern and is never in a terminal
status; and on the two-process list from the spec example only the first
process is returned. -/
theorem classifier_characterization :
    (∀ ps : List Proc, findGatewayInList ps = ps.find? gatewayCandidate)
    ∧ (∀ ps : List Proc, ∀ p : Proc, findGatewayInList ps = some p →
        isGatewayProcess p.command = true ∧ isCliCommand p.command = false ∧
        (p.status == "starting" || p.status == "running") = true)
    ∧ findGatewayInList
        [Proc.mk 1 "openclaw gateway" "running", Proc.mk 2 "openclaw devices list" "running"]
        = some (Proc.mk 1 "openclaw gateway" "running") :=
  ⟨findGatewayInList_eq_find, fun ps p h => findGatewayInList_sound ps p h, rfl⟩

/-- Witness for C5: the second conjunct applied to the concrete
single-process list from the spec example. -/
theorem classifier_characterization_witness :
    isGatewayProcess (Proc.mk 1 "openclaw gateway" "running").command = true ∧
    isCliCommand (Proc.mk 1 "openclaw gateway" "running").command = false ∧
    ((Proc.mk 1 "openclaw gateway" "running").status == "starting" ||
      (Proc.mk 1 "openclaw gateway" "running").status == "running") = true :=
  classifier_characterization.2.1 [Proc.mk 1 "openclaw gateway" "running"]
    (Proc.mk 1 "openclaw gateway" "running") rfl

/-! ### Credential selector (claims C6, C7) -/

/-- Summary of a provider selection: the populated provider-section
names, and the default model identifier. -/
def provSummary (pr : List (String × JVal) × String) : List String × String :=
  (pr.1.map Prod.fst, pr.2)

/-- C6: Credential precedence: for every credential set, the provider
section is chosen by the fixed priority order (Gemini, then Anthropic,
then OpenAI) where the first present key wins and lower-priority keys
are ignored even if present, so at most one provider subsection is
populated; in particular, whenever only the Anthropic key is present
(Gemini absent), the populated provider is named `anthropic` and the
default model is `anthropic/claude-sonnet-4-20250514`. -/
theorem credential_precedence :
    (∀ env : MoltbotEnv, ∀ provs : List (String × JVal), ∀ dm : String,
        providerSelection env = some (provs, dm) → provs.length = 1)
    ∧ (∀ env : MoltbotEnv, truthy env.GEMINI_API_KEY = true →
        (providerSelection env).map provSummary =
          some (["google-gemini"], "google-gemini/gemini-2.0-flash"))
    ∧ (∀ env : MoltbotEnv, truthy env.GEMINI_API_KEY = false →
        truthy env.ANTHROPIC_API_KEY = true →
        (providerSelection env).map provSummary =
          some (["anthropic"], "anthropic/claude-sonnet-4-20250514"))
    ∧ (∀ env : MoltbotEnv, truthy env.GEMINI_API_KEY = false →
        truthy env.ANTHROPIC_API_KEY = false → truthy env.OPENAI_API_KEY = true →
        (providerSelection env).map provSummary = some (["openai"], "openai/gpt-4o")) := by
  refine ⟨?_, ?_, ?_, ?_⟩
  · intro env provs dm h
    by_cases hg : truthy env.GEMINI_API_KEY = true
    · simp [providerSelection, hg] at h
      rcases h with ⟨rfl, rfl⟩
      rfl
    · have hg2 : truthy env.GEMINI_API_KEY = false := by
        simpa using hg
      by_cases ha : truthy env.ANTHROPIC_API_KEY = true
      · simp [providerSelection, hg2, ha] at h
        rcases h with ⟨rfl, rfl⟩
        rfl
      · have ha2 : truthy env.ANTHROPIC_API_KEY = false := by
          simpa using ha
        by_cases ho : truthy env.OPENAI_API_KEY = true
        · simp [providerSelection, hg2, ha2, ho] at h
          rcases h with ⟨rfl, rfl⟩
          rfl
        · have ho2 : truthy env.OPENAI_API_KEY = false := by
            simpa using ho
          simp [providerSelection, hg2, ha2, ho2] at h
  · intro env hg
    simp [providerSelection, provSummary, hg]
  · intro env hg ha
    simp [providerSelection, provSummary, hg, ha]
  · intro env hg ha ho
    simp [providerSelection, provSummary, hg, ha, ho]

/-- An environment holding only the Anthropic key. -/
def envAnthro : MoltbotEnv :=
  MoltbotEnv.mk none (some "k") none none none none

/-- Witness for C6: with only `ANTHROPIC_API_KEY` set, the selection is
the `anthropic` section with its fixed default model. -/
theorem credential_precedence_witness :
    (providerSelection envAnthro).map provSummary =
      some (["anthropic"], "anthropic/claude-sonnet-4-20250514") :=
  credential_precedence.2.2.1 envAnthro rfl rfl

/-- C7: For every environment with none of the three provider API keys
present, config seeding is skipped entirely: `preseedOpenClawConfig`
issues no sandbox call at all (empty trace, in particular no write
command) and returns normally. -/
theorem preseed_skipped_without_keys :
    ∀ (port : Nat) (env : MoltbotEnv) (w : World),
      truthy env.GEMINI_API_KEY = false → truthy env.ANTHROPIC_API_KEY = false →
      truthy env.OPENAI_API_KEY = false →
      preseedOpenClawConfig port env w = ([], Except.ok ()) := by
  intro port env w h1 h2 h3
  have hps : providerSelection env = none := by
    simp [providerSelection, h1, h2, h3]
  simp [preseedOpenClawConfig, hps, Eff.pureE]

/-- An environment with no provider key at all. -/
def envNone : MoltbotEnv := MoltbotEnv.mk none none none none none none

/-- Handle of the freshly launched gateway process in concrete worlds. -/
def procNew : Proc := Proc.mk 7 "/usr/local/bin/start-openclaw.sh" "starting"

/-- Handle of a pre-existing gateway process in concrete worlds. -/
def procOld : Proc := Proc.mk 3 "openclaw gateway" "running"

/-- A base oracle where every external call succeeds: no existing
process, fresh launch returns `procNew`, every probe and log read ok. -/
def baseWorld : World :=
  World.mk (Except.ok []) (Except.ok ()) (Except.ok ())
    (Except.ok (Proc.mk 9 "node" "running")) (Except.ok ()) (Except.ok (Logs.mk "" ""))
    (Except.ok procNew) (Except.ok ()) (Except.ok (Logs.mk "" "")) (Except.ok (Logs.mk "" ""))

/-- Witness for C7: concrete empty environment, concrete world. -/
theorem preseed_skipped_without_keys_witness :
    preseedOpenClawConfig 18789 envNone baseWorld = ([], Except.ok ()) :=
  preseed_skipped_without_keys 18789 envNone baseWorld rfl rfl rfl

/-! ### Supervisor path theorems -/

/-- C8: The config seeder never fails the supervision flow: for every
input, any failure during the config write (starting the write process,
waiting for it, or reading its logs) is caught inside
`preseedOpenClawConfig`, which returns normally; and the supervisor
still proceeds to launch the gateway — the fresh-start path always
issues the gateway launch call whatever the seeding outcomes, in
particular on every invocation that finds no existing process. -/
theorem preseed_failures_are_advisory :
    (∀ (port : Nat) (env : MoltbotEnv) (w : World),
        (preseedOpenClawConfig port env w).2 = Except.ok ())
    ∧ (∀ (port t : Nat) (env : MoltbotEnv) (w : World),
        Event.startProc launchCommandStr ∈ (freshStart port t env w).1)
    ∧ (∀ (port t : Nat) (env : MoltbotEnv) (w : World) (ps : List Proc),
        w.processes = Except.ok ps → findGatewayInList ps = none →
        Event.startProc launchCommandStr ∈ (ensureMoltbotGateway port t env w).1) := by
  refine ⟨preseed_ok, launch_mem_freshStart, ?_⟩
  intro port t env w ps h1 h2
  simp [ensureMoltbotGateway, findExistingMoltbotProcess, call, Eff.pureE, h1, h2,
    launch_mem_freshStart port t env w]

/-- Witness for C8: concrete invocation with no existing process; the
launch call is in the trace. -/
theorem preseed_failures_are_advisory_witness :
    Event.startProc launchCommandStr ∈ (ensureMoltbotGateway 18789 30000 envNone baseWorld).1 :=
  preseed_failures_are_advisory.2.2 18789 30000 envNone baseWorld [] rfl rfl

/-- C4: Reuse path: for every invocation where an existing live
candidate is found and its readiness probe succeeds,
`ensureMoltbotGateway` performs no kill, no new process launch, and no
config write — its whole trace is mount-check, process listing, and one
readiness probe — and returns the original existing handle unchanged. -/
theorem reuse_path_frame :
    ∀ (port t : Nat) (env : MoltbotEnv) (w : World) (ps : List Proc) (ex : Proc),
      w.processes = Except.ok ps → findGatewayInList ps = some ex →
      w.existingPortWait = Except.ok () →
      ensureMoltbotGateway port t env w =
        ([Event.rclone, Event.listProcs, Event.waitPort ex.id port t], Except.ok ex) := by
  intro port t env w ps ex h1 h2 h3
  simp [ensureMoltbotGateway, findExistingMoltbotProcess, call, Eff.pureE, h1, h2, h3]

/-- A world with one live existing gateway process, everything healthy. -/
def worldReuse : World := { baseWorld with processes := Except.ok [procOld] }

/-- Witness for C4: concrete reuse invocation. -/
theorem reuse_path_frame_witness :
    ensureMoltbotGateway 18789 30000 envNone worldReuse =
      ([Event.rclone, Event.listProcs, Event.waitPort procOld.id 18789 30000],
        Except.ok procOld) :=
  reuse_path_frame 18789 30000 envNone worldReuse [procOld] procOld rfl rfl rfl

/-- C9: Full-timeout reuse probing: whenever an existing live candidate
is found, the readiness probe on it is issued with the same timeout
argument `t` (the `STARTUP_TIMEOUT_MS` the supervisor was invoked with)
that the fresh-launch probe uses — never a shortened one. -/
theorem reuse_probe_full_timeout :
    (∀ (port t : Nat) (env : MoltbotEnv) (w : World) (ps : List Proc) (ex : Proc),
        w.processes = Except.ok ps → findGatewayInList ps = some ex →
        ∃ rest, (ensureMoltbotGateway port t env w).1 =
          Event.rclone :: Event.listProcs :: Event.waitPort ex.id port t :: rest)
    ∧ (∀ (port t : Nat) (env : MoltbotEnv) (w : World) (np : Proc),
        w.launchStart = Except.ok np →
        Event.waitPort np.id port t ∈ (freshStart port t env w).1) := by
  constructor
  · intro port t env w ps ex h1 h2
    cases hw : w.existingPortWait with
    | ok u =>
      cases u
      exact ⟨[], by
        simp [ensureMoltbotGateway, findExistingMoltbotProcess, call, Eff.pureE, h1, h2, hw]⟩
    | error e =>
      cases hk : w.killOutcome with
      | ok u2 =>
        cases u2
        exact ⟨Event.killProc ex.id :: (freshStart port t env w).1, by
          simp [ensureMoltbotGateway, findExistingMoltbotProcess, call, Eff.pureE,
            h1, h2, hw, hk]⟩
      | error e2 =>
        exact ⟨Event.killProc ex.id :: (freshStart port t env w).1, by
          simp [ensureMoltbotGateway, findExistingMoltbotProcess, call, Eff.pureE,
            h1, h2, hw, hk]⟩
  · intro port t env w np hnp
    unfold freshStart
    have hp := preseed_ok port env w
    rcases hpre : preseedOpenClawConfig port env w with ⟨pev, pr⟩
    rw [hpre] at hp
    simp only at hp
    subst hp
    cases hfw : w.freshPortWait with
    | error e =>
      cases hlf : w.logsOnFailure with
      | error e2 => simp [call, throwE, Eff.pureE, hnp, hfw, hlf]
      | ok lg => simp [call, throwE, Eff.pureE, hnp, hfw, hlf]
    | ok u =>
      cases hla : w.logsAfterReady with
      | error e2 =>
        cases hlf : w.logsOnFailure with
        | error e3 => simp [call, throwE, Eff.pureE, hnp, hfw, hla, hlf]
        | ok lg => simp [call, throwE, Eff.pureE, hnp, hfw, hla, hlf]
      | ok lg => simp [call, throwE, Eff.pureE, hnp, hfw, hla]

/-- Witness for C9: concrete invocation with one live candidate. -/
theorem reuse_probe_full_timeout_witness :
    ∃ rest, (ensureMoltbotGateway 18789 30000 envNone worldReuse).1 =
      Event.rclone :: Event.listProcs :: Event.waitPort procOld.id 18789 30000 :: rest :=
  reuse_probe_full_timeout.1 18789 30000 envNone worldReuse [procOld] procOld rfl rfl

/-! ### Restart path (claim C3) and the two error-propagation slips
(claims C1, C2) -/

/-- A world where the existing process is stuck: its probe times out,
and the subsequent fresh start goes perfectly. -/
def worldRestart : World :=
  { baseWorld with
    processes := Except.ok [procOld],
    existingPortWait := Except.error Err.portTimeout }

/-- Like `worldRestart`, except that after the fresh launch becomes
ready, reading its logs throws (both log-read call sites throw). -/
def worldRestartLogsFail : World :=
  { worldRestart with
    logsAfterReady := Except.error Err.getLogsFailed,
    logsOnFailure := Except.error Err.getLogsFailed }

/-- Counterexample to C3 as stated: existing candidate found, its probe
times out, the fresh launch becomes ready (`freshPortWait` succeeds) —
yet the supervisor does not return the newly launched handle: the
post-readiness diagnostic log read throws, that exception is caught by
the `catch` meant for probe failures, and the supervisor raises it. -/
theorem restart_path_cex :
    worldRestartLogsFail.freshPortWait = Except.ok () ∧
    (ensureMoltbotGateway 18789 30000 envNone worldRestartLogsFail).2 =
      Except.error Err.getLogsFailed :=
  ⟨rfl, rfl⟩

/-- C3 (amended): Restart path: for every invocation where an existing
live candidate is found but its readiness probe times out,
`ensureMoltbotGateway` issues exactly one kill on the old process (a
kill failure is not fatal — `killOutcome` is unconstrained below — and
does not stop the fresh start), runs config seeding exactly once,
performs exactly one fresh launch, and — if that launch becomes ready
and the post-readiness diagnostic log read succeeds — returns the newly
launched handle, never the old one. -/
theorem restart_path_amended :
    ∀ (port t : Nat) (env : MoltbotEnv) (w : World) (ps : List Proc) (ex np : Proc)
      (e : Err) (lg : Logs),
      w.processes = Except.ok ps → findGatewayInList ps = some ex →
      w.existingPortWait = Except.error e →
      w.launchStart = Except.ok np →
      w.freshPortWait = Except.ok () →
      w.logsAfterReady = Except.ok lg →
      ((ensureMoltbotGateway port t env w).1 =
          [Event.rclone, Event.listProcs, Event.waitPort ex.id port t, Event.killProc ex.id]
            ++ (preseedOpenClawConfig port env w).1
            ++ [Event.startProc launchCommandStr, Event.waitPort np.id port t,
                Event.getLogs np.id]
        ∧ (ensureMoltbotGateway port t env w).1.countP isKillEvent = 1
        ∧ (ensureMoltbotGateway port t env w).1.countP isLaunchEvent = 1
        ∧ (ensureMoltbotGateway port t env w).2 = Except.ok np) := by
  intro port t env w ps ex np e lg h1 h2 h3 h4 h5 h6
  have hc := preseed_trace_counts port env w
  have hp := preseed_ok port env w
  rcases hpre : preseedOpenClawConfig port env w with ⟨pev, pr⟩
  rw [hpre] at hp hc
  simp only at hp hc
  subst hp
  have main : ensureMoltbotGateway port t env w =
      ([Event.rclone, Event.listProcs, Event.waitPort ex.id port t, Event.killProc ex.id]
        ++ pev ++ [Event.startProc launchCommandStr, Event.waitPort np.id port t,
            Event.getLogs np.id],
        Except.ok np) := by
    cases hk : w.killOutcome with
    | ok u =>
      cases u
      simp [ensureMoltbotGateway, findExistingMoltbotProcess, freshStart, call, Eff.pureE,
        throwE, h1, h2, h3, h4, h5, h6, hk, hpre]
    | error e2 =>
      simp [ensureMoltbotGateway, findExistingMoltbotProcess, freshStart, call, Eff.pureE,
        throwE, h1, h2, h3, h4, h5, h6, hk, hpre]
  refine ⟨?_, ?_, ?_, ?_⟩
  · simp [main, hpre]
  · rw [main]
    simp [List.countP_append, List.countP_cons, isKillEvent, isLaunchEvent, hc.1]
  · rw [main]
    simp [List.countP_append, List.countP_cons, isKillEvent, isLaunchEvent, hc.2]
  · rw [main]

/-- Witness for C3 (amended): concrete stuck-existing-process world with
a fully healthy fresh start. -/
theorem restart_path_amended_witness :
    ((ensureMoltbotGateway 18789 30000 envNone worldRestart).1 =
        [Event.rclone, Event.listProcs, Event.waitPort procOld.id 18789 30000,
          Event.killProc procOld.id]
          ++ (preseedOpenClawConfig 18789 envNone worldRestart).1
          ++ [Event.startProc launchCommandStr, Event.waitPort procNew.id 18789 30000,
              Event.getLogs procNew.id]
      ∧ (ensureMoltbotGateway 18789 30000 envNone worldRestart).1.countP isKillEvent = 1
      ∧ (ensureMoltbotGateway 18789 30000 envNone worldRestart).1.countP isLaunchEvent = 1
      ∧ (ensureMoltbotGateway 18789 30000 envNone worldRestart).2 = Except.ok procNew) :=
  restart_path_amended 18789 30000 envNone worldRestart [procOld] procOld procNew
    Err.portTimeout (Logs.mk "" "") rfl rfl rfl rfl rfl rfl

/-- A world for C1: fresh start, readiness probe times out, but the
diagnostic log retrieval succeeds and captures stderr output. -/
def worldFreshTimeout : World :=
  { baseWorld with
    freshPortWait := Except.error Err.portTimeout,
    logsOnFailure := Except.ok (Logs.mk "out" "boom") }

/-- C1 evaluated at its failing input: the readiness probe of the fresh
start throws `portTimeout`, the diagnostic log retrieval succeeds with
non-empty stderr — yet the error raised by `ensureMoltbotGateway` is the
bare original `portTimeout`, not the descriptive
`gatewayStartupError` carrying the captured stderr: the source builds
that error inside the inner `try` (line 217), so its own
`catch (logErr)` (line 220) intercepts it and rethrows the original
timeout.  The claim's diagnostic-carrying branch is unreachable. -/
theorem fresh_timeout_error_swallowed :
    worldFreshTimeout.logsOnFailure = Except.ok (Logs.mk "out" "boom") ∧
    (ensureMoltbotGateway 18789 30000 envNone worldFreshTimeout).2 =
      Except.error Err.portTimeout :=
  ⟨rfl, rfl⟩

/-- A world for C2: fresh start, readiness probe succeeds, but the
subsequent diagnostic log read (source line 208) throws, as does the
log read in the catch block. -/
def worldFreshLogsFail : World :=
  { baseWorld with
    logsAfterReady := Except.error Err.getLogsFailed,
    logsOnFailure := Except.error Err.getLogsFailed }

/-- C2 evaluated at its failing input: the fresh launch's readiness
probe succeeds (`freshPortWait` is ok), but the post-success `getLogs`
throws; because that call sits inside the same `try` as the readiness
probe (source lines 203-210), the supervisor raises the log-retrieval
error instead of returning the ready process handle. -/
theorem ready_logs_failure_fails_supervisor :
    worldFreshLogsFail.freshPortWait = Except.ok () ∧
    (ensureMoltbotGateway 18789 30000 envNone worldFreshLogsFail).2 =
      Except.error Err.getLogsFailed :=
  ⟨rfl, rfl⟩
